import Mathlib

/-!
Verification model of the missioncontrol dispatch translator
(`dispatch/trixterdispatcher.py` and the node attributes it consumes from
`nodes/base.py`, entry point `apps/missioncontrol/missioncontrol-1.py`).

The embedding follows the Python 2 source.  Values flowing through
`get_required_tasks` are Python strings (node names) and instances of the
`Tuple`/`List` wrapper classes; both wrappers are subclasses of the builtin
`tuple`/`list`, and a Python string is itself a sequence of one-character
strings.  That sequence view is load-bearing for the dispatcher code
(`len`, indexing and iteration are applied to all three kinds of value),
so the value model carries it explicitly.
-/

namespace MissionControl

/-- A Python value reachable inside `get_required_tasks`:
a `str` (a node name), a `Tuple` wrapper instance, or a `List` wrapper
instance.  A `str` behaves as a sequence of its one-character substrings. -/
inductive PyVal where
  | leaf : String → PyVal
  | tup : List PyVal → PyVal
  | lst : List PyVal → PyVal

mutual

def PyVal.decEq : (a b : PyVal) → Decidable (a = b)
  | .leaf a, .leaf b =>
    if h : a = b then .isTrue (by rw [h]) else .isFalse (by intro hh; cases hh; exact h rfl)
  | .tup as, .tup bs =>
    match PyVal.decEqList as bs with
    | .isTrue h => .isTrue (by rw [h])
    | .isFalse h => .isFalse (by intro hh; cases hh; exact h rfl)
  | .lst as, .lst bs =>
    match PyVal.decEqList as bs with
    | .isTrue h => .isTrue (by rw [h])
    | .isFalse h => .isFalse (by intro hh; cases hh; exact h rfl)
  | .leaf _, .tup _ => .isFalse nofun
  | .leaf _, .lst _ => .isFalse nofun
  | .tup _, .leaf _ => .isFalse nofun
  | .tup _, .lst _ => .isFalse nofun
  | .lst _, .leaf _ => .isFalse nofun
  | .lst _, .tup _ => .isFalse nofun

def PyVal.decEqList : (as bs : List PyVal) → Decidable (as = bs)
  | [], [] => .isTrue rfl
  | a :: as, b :: bs =>
    match PyVal.decEq a b, PyVal.decEqList as bs with
    | .isTrue h1, .isTrue h2 => .isTrue (by rw [h1, h2])
    | .isFalse h1, _ => .isFalse (by intro hh; injection hh with e1 e2; exact h1 e1)
    | _, .isFalse h2 => .isFalse (by intro hh; injection hh with e1 e2; exact h2 e2)
  | [], _ :: _ => .isFalse nofun
  | _ :: _, [] => .isFalse nofun

end

instance : DecidableEq PyVal := PyVal.decEq

/-- Python `len` on the three value kinds. -/
def pyLen : PyVal → Nat
  | .leaf s => s.length
  | .tup xs => xs.length
  | .lst xs => xs.length

/-- Python iteration: the element sequence of a value.  Iterating a string
yields its characters as one-character strings. -/
def pyElems : PyVal → List PyVal
  | .leaf s => s.data.map (fun c => .leaf c.toString)
  | .tup xs => xs
  | .lst xs => xs

/-- Python indexing `v[0]`.  Only evaluated by the source under a
`len(v) == 1` guard, so the empty-sequence default is never reached there. -/
def pyGet0 : PyVal → PyVal
  | .leaf s => .leaf (String.mk (s.data.take 1))
  | .tup xs => xs.headD (.tup [])
  | .lst xs => xs.headD (.lst [])

/-- `tuple.__new__(Tuple, iterable)`: the constructed tuple holds exactly
the elements of the iterable. -/
def tupleNew (iterable : PyVal) : PyVal := .tup (pyElems iterable)

/-- `Tuple.__init__` (trixterdispatcher.py lines 44-49): both branches
forward to `tuple.__init__`, which on an immutable tuple leaves the value
unchanged, so the `len(iterable) == 1` special case selects between two
no-ops. -/
def tupleInit (self : PyVal) (iterable : PyVal) : PyVal :=
  if pyLen iterable = 1 then self else self

/-- The call `Tuple(iterable)`: `__new__` followed by `__init__`. -/
def TupleCall (iterable : PyVal) : PyVal := tupleInit (tupleNew iterable) iterable

/-- The builtin call `tuple(iterable)` (no subclass), for comparison with
`TupleCall` in the refinement claim. -/
def pyTuple (iterable : PyVal) : PyVal := .tup (pyElems iterable)

/-- `List.__init__` (trixterdispatcher.py lines 52-57): `list.__init__`
really does fill the list, so the `len(iterable) == 1` branch initialises
the list from `iterable[0]` — one level of the argument is spliced. -/
def listInitArg (iterable : PyVal) : PyVal :=
  if pyLen iterable = 1 then pyGet0 iterable else iterable

/-- The call `List(iterable)`: an empty list filled by `List.__init__`. -/
def ListCall (iterable : PyVal) : PyVal := .lst (pyElems (listInitArg iterable))

/-- The `while len(nodes) == 1: nodes = nodes[0]` loop shared by both
branches of `_reduce_hierarchy_levels`.  On a one-character string the
loop body is the identity (`"A"[0] == "A"`), so the Python loop never
terminates; that case is `none`. -/
def whileUnwrap : PyVal → Option PyVal
  | .leaf s => if s.length = 1 then none else some (.leaf s)
  | .tup [x] => whileUnwrap x
  | .tup xs => some (.tup xs)
  | .lst [x] => whileUnwrap x
  | .lst xs => some (.lst xs)

/-- `_reduce_hierarchy_levels` (trixterdispatcher.py lines 286-301).
The `isinstance` dispatch happens once on entry; the unwrap loop then
descends through any singleton sequence.  In the `Tuple` branch a
non-`Tuple` loop result is passed through the `Tuple` constructor, which
splices one level of it (for a string leaf: its characters). -/
def reduceHierarchyLevels (nodes : PyVal) : Option PyVal :=
  match nodes with
  | .lst xs => whileUnwrap (.lst xs)
  | .tup xs =>
    (whileUnwrap (.tup xs)).map (fun v =>
      match v with
      | .tup ys => .tup ys
      | v => TupleCall v)
  | v => some v

/-! ## Graph model

Nodes are identified by natural-number ids.  The graph records, per node,
the data the dispatcher reads: the instance name (`getName()`), the value
of the read-only `type` plug set from the registered plugin name
(nodes/base.py lines 390-397), the node's class (variant), its x position,
the input of its chain port (the `processor` port of a `HierarchyTask`,
the `in` port of a `JobtronautProcessor` or `Dot`), the `scope` and
`parameters` plug contents of processors, and the `title`, `description`,
`elements_id` and `per_element` plugs of hierarchy tasks.  Task-graph
links (`out` → `in`) are an edge list; `connectedNodeGadgets(node, Out, 1)`
is modelled as the edge-list-ordered list of link targets. -/

/-- The node classes distinguished by `isinstance` checks in the
dispatcher. -/
inductive GVariant where
  | root | serial | parallel | hierarchyTask | jtask | dot | processor | other
deriving DecidableEq, Repr

/-- A parameter entry of a processor's `parameters` compound plug.  Every
entry is built as `Gaffer.NameValuePlug(name, data, True, name=name)`
(nodes/base.py lines 435-486), which creates an `enabled` child `BoolPlug`
(default `True`); `hasEnabled` records that the child exists, `enabled`
its boolean value.  Parameter values are modelled as strings. -/
structure ParamPlug where
  pname : String
  hasEnabled : Bool
  enabled : Bool
  value : String
  defaultValue : String
deriving DecidableEq, Repr

structure GNode where
  name : String
  typeName : String
  variant : GVariant
  x : Int
  chainIn : Option Nat
  scope : List String
  params : List ParamPlug
  title : String
  description : String
  elementsId : String
  perElement : Bool
deriving Repr

/-- Default node returned for an id outside the graph; never reached on
the concrete graphs used below. -/
def GNode.dummy : GNode :=
  ⟨"", "", .other, 0, none, [], [], "", "", "", false⟩

structure GGraph where
  nodes : List GNode
  edges : List (Nat × Nat)

def gnode (g : GGraph) (n : Nat) : GNode := g.nodes.getD n GNode.dummy

def gname (g : GGraph) (n : Nat) : String := (gnode g n).name

def gtype (g : GGraph) (n : Nat) : String := (gnode g n).typeName

def gvariant (g : GGraph) (n : Nat) : GVariant := (gnode g n).variant

def gx (g : GGraph) (n : Nat) : Int := (gnode g n).x

def gchainIn (g : GGraph) (n : Nat) : Option Nat := (gnode g n).chainIn

/-- `connectedNodeGadgets(current, Out, 1)`: the immediate downstream
neighbours, in link order. -/
def downstream (g : GGraph) (n : Nat) : List Nat :=
  (g.edges.filter (fun e => e.1 = n)).map (fun e => e.2)

/-- Stable insertion into a list sorted by x position: a new element goes
after existing elements with an equal key, as Python's stable `sorted`
keeps ties in discovery order. -/
def insertByX (g : GGraph) (a : Nat) : List Nat → List Nat
  | [] => [a]
  | b :: bs => if gx g b ≤ gx g a then b :: insertByX g a bs else a :: b :: bs

/-- `sorted(downstream_nodes, key=lambda node: ...getNodePosition(node).x)`
(trixterdispatcher.py line 314), as a stable sort by x. -/
def sortByX (g : GGraph) (l : List Nat) : List Nat :=
  l.foldl (fun acc a => insertByX g a acc) []

/-! ## Hierarchy resolver (`get_required_tasks`, lines 281-331)

`_get_nodes` recurses through the task graph; a cyclic graph makes the
Python recurse forever, so the embedding takes a fuel bound and returns
`none` when the bound (or a diverging collapse loop) is hit. -/

/-- `_get_nodes(current)` (lines 303-326): classify each sorted immediate
downstream neighbour, append its contribution to the `required_tasks`
accumulator (`Dot` recurses transparently, `Serial` wraps in `Tuple`,
`Parallel` wraps in `List`, `HierarchyTask`/`JobtronautTask` contribute
their name, anything else is ignored), then collapse the accumulator.
The fuel bounds the recursion depth; the Python recursion is unbounded,
so any sufficiently large fuel reproduces a terminating Python run and
`none` models divergence (cyclic graph or a diverging collapse loop). -/
def getNodesF (g : GGraph) : Nat → Nat → Option PyVal
  | 0, _ => none
  | f + 1, cur =>
    let step : Nat → Option (List PyVal) → Option (List PyVal) := fun n tail =>
      match tail with
      | none => none
      | some t =>
        match gvariant g n with
        | .dot =>
          match getNodesF g f n with
          | none => none
          | some r =>
            match reduceHierarchyLevels r with
            | none => none
            | some e => some (e :: t)
        | .serial =>
          match getNodesF g f n with
          | none => none
          | some r =>
            match reduceHierarchyLevels (TupleCall r) with
            | none => none
            | some e => some (e :: t)
        | .parallel =>
          match getNodesF g f n with
          | none => none
          | some r =>
            match reduceHierarchyLevels (ListCall r) with
            | none => none
            | some e => some (e :: t)
        | .hierarchyTask => some (.leaf (gname g n) :: t)
        | .jtask => some (.leaf (gname g n) :: t)
        | _ => some t
    match (sortByX g (downstream g cur)).foldr step (some []) with
    | none => none
    | some entries => reduceHierarchyLevels (.lst entries)

/-- `get_required_tasks(startnode, scriptnode)` (lines 281-331): run
`_get_nodes` from the start node, then wrap a bare (non-`List`,
non-`Tuple`) result into a plain one-element Python list, modelled with
the same `lst` constructor since no later `isinstance` test inspects it. -/
def getRequiredTasks (g : GGraph) (fuel : Nat) (start : Nat) : Option PyVal :=
  match getNodesF g fuel start with
  | none => none
  | some r =>
    match r with
    | .lst xs => some (.lst xs)
    | .tup xs => some (.tup xs)
    | r => some (.lst [r])

/-! ## Processor chain extractor (`get_processors`, lines 266-278) -/

/-- The `while current_plug` loop of `get_processors`: `cur` is the node
owning the output plug currently connected (`none` once a port has no
inbound connection, which exits the loop).  A `Dot` is followed through
its `in` input, a `JobtronautProcessor` is prepended to the accumulator
and followed through its `in` input; for any other node class neither
`isinstance` branch runs, so `current_plug` is left unchanged and the
Python loop repeats the same iteration forever — with fuel, that case
never reaches a result. -/
def getProcessorsLoop (g : GGraph) : Nat → Option Nat → List Nat → Option (List Nat)
  | _, none, acc => some acc
  | 0, some _, _ => none
  | f + 1, some cur, acc =>
    match gvariant g cur with
    | .dot => getProcessorsLoop g f (gchainIn g cur) acc
    | .processor => getProcessorsLoop g f (gchainIn g cur) (cur :: acc)
    | _ => getProcessorsLoop g f (some cur) acc

/-- `get_processors(startnode)`: walk backward from the input of the
start node's `processor` port. -/
def getProcessors (g : GGraph) (fuel : Nat) (start : Nat) : Option (List Nat) :=
  getProcessorsLoop g fuel (gchainIn g start) []

/-- The backward chain reachable from a plug: `isChain g s cs` holds when
following `in`-port inputs from `s` visits exactly the nodes `cs` and then
reaches an unconnected port. -/
def isChain (g : GGraph) : Option Nat → List Nat → Bool
  | none, [] => true
  | some c, x :: xs => c = x && isChain g (gchainIn g c) xs
  | _, _ => false

/-- All the listed nodes are `Dot` or `JobtronautProcessor` instances. -/
def allDotOrProc (g : GGraph) (cs : List Nat) : Bool :=
  cs.all (fun n => gvariant g n = .dot || gvariant g n = .processor)

def isProcNode (g : GGraph) (n : Nat) : Bool := gvariant g n = .processor

/-! ## Processor definitions (`dispatch`, lines 226-234) -/

/-- The parameter filter (lines 230-232): an entry is emitted when
`plug.getChild("enabled")` is truthy — which tests only that the `enabled`
child plug exists, not its boolean value — and the value plug is not at
its default. -/
def extractParameters (plugs : List ParamPlug) : List (String × String) :=
  plugs.foldl
    (fun acc p =>
      if p.hasEnabled && !(p.value = p.defaultValue) then acc ++ [(p.pname, p.value)]
      else acc)
    []

structure ProcessorDef where
  name : String
  scope : List String
  parameters : List (String × String)
deriving DecidableEq, Repr

/-- Lines 227-232: the `ProcessorDefinitionTemplate` built for one
recorded processor node.  Its `name` is `processor_node.getName()` — the
instance name. -/
def buildProcessorDef (g : GGraph) (n : Nat) : ProcessorDef where
  name := gname g n
  scope := (gnode g n).scope
  parameters := extractParameters (gnode g n).params

/-! ## Python textual representations

`str` applied to the values the emitter renders: nested `List`/`Tuple`
structures of strings, lists of scope strings, the parameters dict (whose
iteration order is modelled as insertion order) and the
`ProcessorDefinitionTemplate` objects. -/

mutual

/-- Python `str`/`repr` of a required-tasks value: strings are quoted,
lists bracketed, tuples parenthesised with the one-element trailing
comma. -/
def pyRepr : PyVal → String
  | .leaf s => "'" ++ s ++ "'"
  | .tup [x] => "(" ++ pyRepr x ++ ",)"
  | .tup xs => "(" ++ pyReprSep xs ++ ")"
  | .lst xs => "[" ++ pyReprSep xs ++ "]"

def pyReprSep : List PyVal → String
  | [] => ""
  | [x] => pyRepr x
  | x :: xs => pyRepr x ++ ", " ++ pyReprSep xs

end

/-- Python `str` of a list of strings. -/
def pyStrListRepr (xs : List String) : String :=
  "[" ++ String.intercalate ", " (xs.map (fun s => "'" ++ s ++ "'")) ++ "]"

/-- Python `str` of a string-to-string dict, in insertion order. -/
def pyDictRepr (ps : List (String × String)) : String :=
  "\x7b" ++ String.intercalate ", " (ps.map (fun p => "'" ++ p.1 ++ "': '" ++ p.2 ++ "'")) ++
    "\x7d"

/-- `ProcessorDefinitionTemplate.__repr__` (lines 178-185): the `scope`
and `parameters` keywords are only included when non-empty. -/
def procDefRepr (p : ProcessorDef) : String :=
  "ProcessorDefinition(" ++ "name='" ++ p.name ++ "'" ++
    (if p.scope.isEmpty then "" else ",scope=" ++ pyStrListRepr p.scope) ++
    (if p.parameters.isEmpty then "" else ",parameters=" ++ pyDictRepr p.parameters) ++ ")"

/-- Python `str` of the `argument_processors` list. -/
def procListRepr (ps : List ProcessorDef) : String :=
  "[" ++ String.intercalate ", " (ps.map procDefRepr) ++ "]"

/-! ## `_indent` (lines 60-150)

A character machine over the space-stripped `str` of its argument.  The
quote, brace and backslash characters it branches on are named via their
code points. -/

def braceO : Char := Char.ofNat 123
def braceC : Char := Char.ofNat 125
def squote : Char := Char.ofNat 39
def dquote : Char := Char.ofNat 34
def backslash : Char := Char.ofNat 92

/-- `_parse_dict` (lines 81-101): copy characters until the brace depth
returns to zero, escaping double quotes and turning single quotes into
escaped double quotes.  Running out of characters first is an uncaught
`IndexError` (`none`). -/
def parseDict : List Char → Int → List Char → Option (List Char × List Char)
  | [], _, _ => none
  | c :: rest, depth, temp =>
    let depth' := if c = braceO then depth + 1 else if c = braceC then depth - 1 else depth
    let add : List Char :=
      if c = dquote then [backslash, dquote]
      else if c = squote then [backslash, dquote]
      else [c]
    let temp' := temp ++ add
    if depth' = 0 then some (temp', rest) else parseDict rest depth' temp'

/-- `"    " * current_level` (a negative level yields the empty string,
as in Python). -/
def indentSpaces (level : Int) : List Char :=
  List.replicate (4 * level.toNat) ' '

def prevAlnum : Option Char → Bool
  | none => false
  | some c => c.isAlphanum

/-- One step of `_indent`'s character classification (lines 115-148),
applied to char `c`: returns the text appended to `new_string` and the
updated `(current_level, word_mode, type_mode, prev_char)`.  The final
`else` branch ends in `continue`, skipping the `type_mode = False`
reset. -/
def indentClassify (c : Char) (level : Int) (word typeM : Bool) (prev : Option Char) :
    List Char × Int × Bool × Bool × Option Char :=
  if c = '[' || c = '(' then
    let out := if prevAlnum prev then [c] else '\n' :: (indentSpaces level ++ [c, '\n'])
    (out, level + 1, word, false, some c)
  else if c = ']' || c = ')' then
    ('\n' :: (indentSpaces (level - 1) ++ [c]), level - 1, word, false, some c)
  else if c = ',' then
    ([c, '\n'], level, word, false, some c)
  else if c = squote || c = dquote then
    let out := (if !word && !(prev = some '=') then indentSpaces level else []) ++ [c]
    (out, level, !word, false, some c)
  else if word then
    ([c], level, word, false, some c)
  else
    let out := (if !typeM && !(prev = some '=') then indentSpaces level else []) ++ [c]
    (out, level, word, true, some c)

/-- The `while string:` loop of `_indent` (lines 103-148).  A `{` first
routes the remainder through `_parse_dict` (whose output is appended
before the `{` itself is classified).  Each iteration consumes at least
one character, so fuel equal to the initial length suffices. -/
def indentLoop :
    Nat → List Char → Int → Bool → Bool → Option Char → List Char → Option (List Char)
  | _, [], _, _, _, _, acc => some acc
  | 0, _ :: _, _, _, _, _, _ => none
  | f + 1, c :: rest, level, word, typeM, prev, acc =>
    match (if c = braceO then parseDict rest 1 [braceO] else some ([], rest)) with
    | none => none
    | some (t, rest') =>
      match indentClassify c level word typeM prev with
      | (out, level', word', typeM', prev') =>
        indentLoop f rest' level' word' typeM' prev' (acc ++ t ++ out)

/-- `_indent(input)` applied to the already-stringified argument: strip
spaces, write the first character and a newline (an empty argument is an
uncaught `IndexError`), then run the loop over the whole string (the
first character is processed again — the source does not skip it). -/
def pyIndent (input : String) : Option String :=
  let s := input.data.filter (fun c => !(c = ' '))
  match s with
  | [] => none
  | c0 :: _ =>
    (indentLoop s.length s 2 false false none [c0, '\n']).map (fun l => String.mk l)

/-! ## Task templates and dispatch (lines 153-169 and 214-249) -/

/-- The fields `dispatch` sets on a `TaskTemplate` (lines 153-159 and
222-237).  `title`, per `__repr__`, is re-emitted from `name`; the
`HierarchyTask` node's `title` and `description` plug values are never
transferred, so no field holds them. -/
structure TaskTemplate where
  name : String
  argument_processors : List ProcessorDef
  required_tasks : PyVal
  elements_id : String
  per_element : Bool
deriving DecidableEq

/-- Does `pat` occur at the start of `s`? -/
def listHasPrefix : List Char → List Char → Bool
  | [], _ => true
  | _ :: _, [] => false
  | p :: ps, c :: cs => p = c && listHasPrefix ps cs

/-- Does `pat` occur anywhere in `s`? -/
def listHasSub (pat : List Char) : List Char → Bool
  | [] => pat.isEmpty
  | c :: cs => listHasPrefix pat (c :: cs) || listHasSub pat cs

/-- Substring test on strings (structural, so concrete instances
evaluate). -/
def strContains (s pat : String) : Bool := listHasSub pat.data s.data

/-- `TaskTemplate.__repr__` (lines 161-169).  `title` is emitted as the
bare (unquoted) template name; `argument_processors` only when non-empty;
`elements_id` unquoted and only when non-blank; the `flags` line only
when `per_element`; no `description` line exists. -/
def taskTemplateRepr (t : TaskTemplate) : Option String := do
  let base := "class " ++ t.name ++ "(Task):" ++ "\n    title = " ++ t.name
  let withProcs ←
    if t.argument_processors.isEmpty then pure base
    else do
      let i ← pyIndent (procListRepr t.argument_processors)
      pure (base ++ "\n    argument_processors = " ++ i)
  let iReq ← pyIndent (pyRepr t.required_tasks)
  let withReq := withProcs ++ "\n    required_tasks = " ++ iReq
  let withEid :=
    if t.elements_id = "" then withReq
    else withReq ++ "\n    elements_id = " ++ t.elements_id
  pure (if t.per_element then withEid ++ "\n    flags = Task.Flags.PER_ELEMENT" else withEid)

/-- Breadth-first downstream closure used to model
`connectedNodeGadgets(startnode, Out, sys.maxint)`: the set of nodes
reachable over outbound links, in first-visit order (the host API's
order is unspecified; only membership and stability matter to the
dispatcher). -/
def bfsClosure (g : GGraph) : Nat → List Nat → List Nat → List Nat
  | 0, _, vis => vis
  | _ + 1, [], vis => vis
  | f + 1, n :: rest, vis =>
    if vis.contains n then bfsClosure g f rest vis
    else bfsClosure g f (rest ++ downstream g n) (vis ++ [n])

/-- `get_hierarchy_nodes(startnode, scriptnode)` (lines 251-264): the
downstream closure filtered to `HierarchyTask` nodes, plus the start node
itself when it is one (`StandardSet.add` keeps one copy). -/
def getHierarchyNodes (g : GGraph) (fuel : Nat) (start : Nat) : List Nat :=
  let connected :=
    (bfsClosure g fuel (downstream g start) []).filter
      (fun n => gvariant g n = GVariant.hierarchyTask)
  if gvariant g start = GVariant.hierarchyTask && !(connected.contains start) then
    connected ++ [start]
  else connected

/-- The per-hierarchy-node body of `dispatch` (lines 222-237): build the
`TaskTemplate` with the node's name, its required tasks, one
`ProcessorDefinitionTemplate` per processor in its chain, and the
`elements_id` / `per_element` plug values. -/
def buildTemplate (g : GGraph) (fuel : Nat) (h : Nat) : Option TaskTemplate := do
  let required ← getRequiredTasks g fuel h
  let procs ← getProcessors g fuel h
  pure
    { name := gname g h
      argument_processors := procs.map (buildProcessorDef g)
      required_tasks := required
      elements_id := (gnode g h).elementsId
      per_element := (gnode g h).perElement }

def dispatchHeader : String := "from jobtronaut.author import (Task, ProcessorDefinition)"

/-- `dispatch(nodes)` for one submitting node (lines 218-241): the file
content written to the task file — the import header followed by one
rendered template per hierarchy node.  `textwrap.dedent` is the identity
here because the header line has no leading whitespace, so no common
margin exists. -/
def dispatchFile (g : GGraph) (fuel : Nat) (start : Nat) : Option String :=
  (getHierarchyNodes g fuel start).foldl
    (fun acc h => do
      let code ← acc
      let t ← buildTemplate g fuel h
      let r ← taskTemplateRepr t
      pure (code ++ "\n\n\n" ++ r))
    (some dispatchHeader)

/-- `dispatch(nodes)` (line 215: `submitting_node = nodes[0]`): only the
first submitted node is read; an empty submission list raises an
uncaught `IndexError` before any output is produced. -/
def dispatchSubmit (g : GGraph) (fuel : Nat) (nodes : List Nat) :
    Except String (Option String) :=
  match nodes with
  | [] => .error "IndexError: list index out of range"
  | n :: _ => .ok (dispatchFile g fuel n)


/-! ## Concrete graphs used by the claims -/

def mkNode (name : String) (v : GVariant) (x : Int) : GNode :=
  { GNode.dummy with name := name, variant := v, x := x }

/-- The spec's scenario graph
`Root → H1 → Serial S → (H2 at x=10, H3 at x=20) → Parallel P → H4`
(nodes listed in id order; the `S → H3` link precedes the `S → H2` link
so that the x sort, not the link order, decides the pair's order). -/
def scenarioGraph : GGraph where
  nodes := [mkNode "Root" .root 0, mkNode "H1" .hierarchyTask 0, mkNode "S" .serial 0,
            mkNode "H2" .hierarchyTask 10, mkNode "H3" .hierarchyTask 20,
            mkNode "P" .parallel 0, mkNode "H4" .hierarchyTask 0]
  edges := [(0, 1), (1, 2), (2, 4), (2, 3), (3, 5), (4, 5), (5, 6)]

/-- A processor node of registered type `SomeProcessor` whose instance
name has been uniquified to `SomeProcessor1` (the graph editor creates
nodes with instance name equal to the type name, but the host uniquifies
clashing names and users may rename nodes freely). -/
def renamedProcGraph : GGraph where
  nodes := [{ GNode.dummy with
                name := "SomeProcessor1", typeName := "SomeProcessor",
                variant := .processor, scope := ["shot"] }]
  edges := []

/-- A processor carrying a parameter `p` that is disabled but changed
from its default, and a parameter `q` that is enabled but left at its
default. -/
def paramGraph : GGraph where
  nodes := [{ GNode.dummy with
                name := "MyProcessor", typeName := "MyProcessor", variant := .processor,
                params := [⟨"p", true, false, "custom", ""⟩,
                           ⟨"q", true, true, "default", "default"⟩] }]
  edges := []

/-- The processor chain `Origin(A) → Dot → B → Consumer`: the consumer's
`processor` port is fed by processor `B` (id 2), whose `in` port is fed
through a `Dot` (id 1) by processor `A` (id 0), whose own `in` port is
unconnected. -/
def chainGraph : GGraph where
  nodes := [mkNode "A" .processor 0,
            { mkNode "Dot" .dot 0 with chainIn := some 0 },
            { mkNode "B" .processor 0 with chainIn := some 1 },
            { mkNode "Consumer" .hierarchyTask 0 with chainIn := some 2 }]
  edges := []

/-- A chain whose walk reaches a node that is neither a `Dot` nor a
`JobtronautProcessor` (for example a `Box` forwarding a `ProcessorPlug`):
consumer (id 0) ← processor `A` (id 1) ← foreign node (id 2). -/
def stuckChainGraph : GGraph where
  nodes := [{ mkNode "Consumer" .hierarchyTask 0 with chainIn := some 1 },
            { mkNode "A" .processor 0 with chainIn := some 2 },
            mkNode "Box" .other 0]
  edges := []

/-- A hierarchy task `H1` with its `title` and `description` plugs set,
required task `H4` downstream. -/
def titledGraph : GGraph where
  nodes := [mkNode "Root" .root 0,
            { mkNode "H1" .hierarchyTask 0 with
                title := "My title", description := "My description" },
            mkNode "H4" .hierarchyTask 0]
  edges := [(0, 1), (1, 2)]

/-- The text `dispatch` emits for `H1` of `titledGraph`. -/
def emittedH1 : String :=
  "class H1(Task):\n    title = H1\n    required_tasks = [\n\n        [\n            'H4'\n        ]"

/-- A graph whose only node is a `Root`: no `HierarchyTask` is reachable
from the submission. -/
def rootOnlyGraph : GGraph where
  nodes := [mkNode "Root" .root 0]
  edges := []

/-! ## Helper lemmas -/

/-- Once the processor walk reaches a connected node that is neither a
`Dot` nor a `JobtronautProcessor`, no loop iteration changes
`current_plug`, so no amount of fuel produces a result. -/
theorem getProcessorsLoop_stuck (g : GGraph) (cur : Nat)
    (h1 : gvariant g cur ≠ .dot) (h2 : gvariant g cur ≠ .processor) :
    ∀ (f : Nat) (acc : List Nat), getProcessorsLoop g f (some cur) acc = none := by
  intro f
  induction f with
  | zero => intro acc; rfl
  | succ f ih =>
    intro acc
    have step : getProcessorsLoop g (f + 1) (some cur) acc =
        match gvariant g cur with
        | .dot => getProcessorsLoop g f (gchainIn g cur) acc
        | .processor => getProcessorsLoop g f (gchainIn g cur) (cur :: acc)
        | _ => getProcessorsLoop g f (some cur) acc := rfl
    rw [step]
    cases hv : gvariant g cur
    case dot => exact absurd hv h1
    case processor => exact absurd hv h2
    all_goals exact ih acc
  
/-- Along a backward chain of `Dot` and `JobtronautProcessor` nodes the
walk terminates within `length + 1` iterations and prepends each
discovered processor, yielding the reversed discovery order in front of
the accumulator. -/
theorem getProcessorsLoop_chain (g : GGraph) :
    ∀ (cs : List Nat) (s : Option Nat) (acc : List Nat),
      isChain g s cs = true → allDotOrProc g cs = true →
      getProcessorsLoop g (cs.length + 1) s acc =
        some ((cs.filter (isProcNode g)).reverse ++ acc) := by
  intro cs
  induction cs with
  | nil =>
    intro s acc hchain _
    cases s with
    | none => rfl
    | some c => simp [isChain] at hchain
  | cons x xs ih =>
    intro s acc hchain hvar
    cases s with
    | none => simp [isChain] at hchain
    | some c =>
      have hc : c = x ∧ isChain g (gchainIn g c) xs = true := by
        simpa [isChain, Bool.and_eq_true, decide_eq_true_eq] using hchain
      obtain ⟨rfl, hrest⟩ := hc
      have hv : (gvariant g c = .dot ∨ gvariant g c = .processor) ∧
          allDotOrProc g xs = true := by
        simpa [allDotOrProc, List.all_cons, Bool.and_eq_true, Bool.or_eq_true,
          decide_eq_true_eq] using hvar
      have step : getProcessorsLoop g (xs.length + 1 + 1) (some c) acc =
          match gvariant g c with
          | .dot => getProcessorsLoop g (xs.length + 1) (gchainIn g c) acc
          | .processor => getProcessorsLoop g (xs.length + 1) (gchainIn g c) (c :: acc)
          | _ => getProcessorsLoop g (xs.length + 1) (some c) acc := rfl
      have hlen : (c :: xs).length + 1 = xs.length + 1 + 1 := by simp
      rw [hlen, step]
      rcases hv.1 with hdot | hproc
      · rw [hdot]
        rw [ih (gchainIn g c) acc hrest hv.2]
        simp [isProcNode, hdot]
      · rw [hproc]
        rw [ih (gchainIn g c) (c :: acc) hrest hv.2]
        simp [isProcNode, hproc, List.filter_cons]

/-! ## The claims -/

/-- C1.  How `_reduce_hierarchy_levels` treats singleton containers: a
`List` of one non-singleton child collapses to that child, but a `Tuple`
whose sole child is the leaf `"H2"` is *not* re-wrapped into the
one-element tuple `("H2",)` — the `Tuple(nodes)` re-wrap iterates the
string and yields the character tuple `('H', '2')` — and on a singleton
whose leaf is a single character the collapse loop never terminates. -/
theorem reduce_hierarchy_levels_singleton_behaviour :
    reduceHierarchyLevels (.lst [.tup [.leaf "H2", .leaf "H3"]]) =
      some (.tup [.leaf "H2", .leaf "H3"]) ∧
    reduceHierarchyLevels (.tup [.leaf "H2"]) = some (.tup [.leaf "H", .leaf "2"]) ∧
    reduceHierarchyLevels (.tup [.leaf "H2"]) ≠ some (.tup [.leaf "H2"]) ∧
    reduceHierarchyLevels (.lst [.leaf "A"]) = none := by
  refine ⟨rfl, rfl, by decide, rfl⟩

/-- C2.  On the scenario graph, `get_required_tasks(H1)` does yield
`Tuple(['H2', 'H3'])` ordered by ascending x even though the `H3` link
is discovered first; but resolving from `H2` (whose downstream is the
`Parallel` group containing only `H4`) yields the character list
`['H', '4']` — `List("H4")` splats the name — not the one-element
sequence `['H4']` the spec states. -/
theorem required_tasks_scenario_behaviour :
    getRequiredTasks scenarioGraph 10 1 = some (.tup [.leaf "H2", .leaf "H3"]) ∧
    getRequiredTasks scenarioGraph 10 3 = some (.lst [.leaf "H", .leaf "4"]) ∧
    getRequiredTasks scenarioGraph 10 3 ≠ some (.lst [.leaf "H4"]) := by
  refine ⟨by decide, by decide, by decide⟩

/-- C3 (counterexample).  The `ProcessorDefinition` built for a processor
node whose instance name (`SomeProcessor1`) differs from its registered
type (`SomeProcessor`) carries the instance name, not the type. -/
theorem processor_definition_name_not_type :
    (buildProcessorDef renamedProcGraph 0).name = "SomeProcessor1" ∧
    gtype renamedProcGraph 0 = "SomeProcessor" ∧
    (buildProcessorDef renamedProcGraph 0).name ≠ gtype renamedProcGraph 0 := by
  refine ⟨rfl, rfl, by decide⟩

/-- C3 (amended).  The `name` field of every built `ProcessorDefinition`
equals the node's instance name (`getName()`), so whenever the instance
name differs from the registered type identifier, the emitted name is
not the type identifier. -/
theorem processor_definition_name_is_instance_name (g : GGraph) (n : Nat) :
    (buildProcessorDef g n).name = gname g n ∧
      (gname g n ≠ gtype g n → (buildProcessorDef g n).name ≠ gtype g n) :=
  ⟨rfl, fun h => h⟩

/-- C3 (witness): the amended statement at the renamed processor. -/
theorem processor_definition_name_is_instance_name_witness :
    (buildProcessorDef renamedProcGraph 0).name = gname renamedProcGraph 0 ∧
      (buildProcessorDef renamedProcGraph 0).name ≠ gtype renamedProcGraph 0 :=
  ⟨(processor_definition_name_is_instance_name renamedProcGraph 0).1,
   (processor_definition_name_is_instance_name renamedProcGraph 0).2 (by decide)⟩

/-- C4.  The parameter filter ignores the `enabled` flag's value: the
parameter `p` is disabled yet emitted (its value differs from the default
and the `enabled` child plug exists, which is all line 231 tests), while
the enabled-but-default `q` is absent. -/
theorem disabled_parameter_still_emitted :
    (gnode paramGraph 0).params =
      [⟨"p", true, false, "custom", ""⟩, ⟨"q", true, true, "default", "default"⟩] ∧
    (buildProcessorDef paramGraph 0).parameters = [("p", "custom")] := by
  refine ⟨rfl, rfl⟩

/-- C5.  The backward walk does not terminate on every chain: on the
chain whose processor `A` is fed by a node that is neither a `Dot` nor a
`JobtronautProcessor`, no fuel bound suffices — the loop body leaves
`current_plug` unchanged and spins forever instead of terminating the
walk as the spec states. -/
theorem get_processors_spins_on_foreign_node :
    ∀ fuel : Nat, getProcessors stuckChainGraph fuel 0 = none := by
  intro fuel
  cases fuel with
  | zero => rfl
  | succ f =>
    have h1 : getProcessors stuckChainGraph (f + 1) 0 =
        getProcessorsLoop stuckChainGraph f (some 2) [1] := rfl
    rw [h1]
    exact getProcessorsLoop_stuck stuckChainGraph 2 (by decide) (by decide) f [1]

/-- C6.  For every backward chain made of `Dot` and `JobtronautProcessor`
nodes the walk terminates and returns the discovered processors in
reversed discovery order — origin first, consumer last. -/
theorem get_processors_origin_first (g : GGraph) (start : Nat) (cs : List Nat)
    (hchain : isChain g (gchainIn g start) cs = true)
    (hvar : allDotOrProc g cs = true) :
    getProcessors g (cs.length + 1) start =
      some ((cs.filter (isProcNode g)).reverse) := by
  have h := getProcessorsLoop_chain g cs (gchainIn g start) [] hchain hvar
  simpa [getProcessors] using h

/-- C6 (witness): on the chain `Origin(A) → Dot → B → Consumer` the
extracted list is `[A, B]`, origin first. -/
theorem get_processors_origin_first_witness :
    isChain chainGraph (gchainIn chainGraph 3) [2, 1, 0] = true ∧
    getProcessors chainGraph 4 3 = some [0, 2] ∧
    [0, 2].map (gname chainGraph) = ["A", "B"] :=
  ⟨by decide,
   (get_processors_origin_first chainGraph 3 [2, 1, 0] (by decide) (by decide)).trans
     (by decide),
   by decide⟩

/-- C7.  The template built for `H1` of `titledGraph` drops the node's
`title` and `description` plug values (`"My title"`, `"My description"`);
the emitted text contains a `title = H1` line holding the *node name
unquoted* and no description at all. -/
theorem task_template_title_unquoted_no_description :
    (gnode titledGraph 1).title = "My title" ∧
    (gnode titledGraph 1).description = "My description" ∧
    buildTemplate titledGraph 10 1 = some ⟨"H1", [], .lst [.leaf "H4"], "", false⟩ ∧
    taskTemplateRepr ⟨"H1", [], .lst [.leaf "H4"], "", false⟩ = some emittedH1 ∧
    strContains emittedH1 "description" = false ∧
    strContains emittedH1 "My title" = false ∧
    strContains emittedH1 "\n    title = H1" = true := by
  refine ⟨rfl, rfl, by decide, by decide, by decide, by decide, by decide⟩

/-- C8 (counterexample).  A dispatch from a graph with no qualifying
hierarchy nodes completes normally and produces the bare import header —
no error of any kind is raised (no `NoDispatchTargetsError` exists in
the code). -/
theorem dispatch_no_targets_completes :
    getHierarchyNodes rootOnlyGraph 10 0 = [] ∧
    dispatchFile rootOnlyGraph 10 0 = some dispatchHeader := by
  refine ⟨rfl, rfl⟩

/-- C8 (amended).  Whenever no qualifying hierarchy node is found,
`dispatch` completes silently, writing exactly the import header line. -/
theorem dispatch_no_targets_header_only (g : GGraph) (fuel start : Nat)
    (h : getHierarchyNodes g fuel start = []) :
    dispatchFile g fuel start = some dispatchHeader := by
  unfold dispatchFile
  rw [h]
  rfl

/-- C8 (witness): the amended statement on the root-only graph. -/
theorem dispatch_no_targets_header_only_witness :
    dispatchFile rootOnlyGraph 10 0 = some dispatchHeader :=
  dispatch_no_targets_header_only rootOnlyGraph 10 0 (by decide)

/-- C9.  The `Tuple` wrapper is extensionally the builtin `tuple`
constructor: for every iterable the constructed value holds exactly the
iterable's elements, and in particular a one-element list is *not*
collapsed at construction time — the `__init__` special case has no
observable effect. -/
theorem tuple_wrapper_equals_builtin_tuple :
    (∀ v : PyVal, TupleCall v = pyTuple v) ∧
      (∀ x : PyVal, TupleCall (.lst [x]) = .tup [x]) := by
  constructor
  · intro v
    unfold TupleCall tupleInit
    split <;> rfl
  · intro x
    rfl

/-- C10.  `dispatch` reads only the first submitted node: two non-empty
submission lists with the same head produce the same result, and the
empty list fails with an `IndexError` before producing any output. -/
theorem dispatch_depends_only_on_first_node (g : GGraph) (fuel : Nat)
    (ns1 ns2 : List Nat) (h1 : ns1 ≠ []) (h : ns1.head? = ns2.head?) :
    dispatchSubmit g fuel ns1 = dispatchSubmit g fuel ns2 ∧
      dispatchSubmit g fuel [] = .error "IndexError: list index out of range" := by
  refine ⟨?_, rfl⟩
  cases ns1 with
  | nil => exact absurd rfl h1
  | cons a as =>
    cases ns2 with
    | nil => simp at h
    | cons b bs =>
      have hab : a = b := by simpa using h
      subst hab
      rfl

/-- C10 (witness): on the scenario graph, submitting `[H1, P]` and `[H1]`
dispatch identically, and the empty submission fails. -/
theorem dispatch_depends_only_on_first_node_witness :
    dispatchSubmit scenarioGraph 10 [1, 5] = dispatchSubmit scenarioGraph 10 [1] ∧
      dispatchSubmit scenarioGraph 10 [] =
        .error "IndexError: list index out of range" :=
  dispatch_depends_only_on_first_node scenarioGraph 10 [1, 5] [1] (by decide) (by decide)

end MissionControl
